import Mathlib

/-!
Verification development for the hdb-resale-map ingestion pipeline.

The definitions below are shallow embeddings of the Python source:

* `src/monthly_data_extractor.py` — `download_file`, `enrich_prices_data`,
  `tagging`, `enrich_properties_data` (town legend and record building),
  `update_latest_properties_dataset`, `update_latest_prices_dataset`,
  `update_latest_aggprices_dataset`, `extract_monthly_data`;
* `src/api/daily_data_extractor.py` — the `date`-column variant of
  `update_latest_prices_dataset`;
* `src/api/monthly_data_extractor.py` — `run`;
* `src/app.py` — `load_prices_data_for_period`, `get_prices_local`.

Tabular pandas data is embedded as lists of records; the dynamically named
period column of a price frame is tracked explicitly (`dcol`), because the
merge logic branches on whether a column literally named `"month"` (resp.
`"date"`) is present.  Remote responses are embedded as values describing
which JSON fields are present.
-/

/-! ## Category tagging (`tagging`, src/monthly_data_extractor.py lines 200-213) -/

/-- The six boolean flag columns of a raw building record, each holding the
sentinel string `"Y"` or `"N"` (embedded as arbitrary strings, as in the
loosely typed source rows). -/
structure BuildingFlags where
  residential : String
  commercial : String
  market_hawker : String
  miscellaneous : String
  multistorey_carpark : String
  precinct_pavilion : String
deriving DecidableEq, Repr

/-- Embedding of `tagging` from src/monthly_data_extractor.py lines 200-213:
an if/elif cascade over the six flags, returning `None` when nothing
matches. -/
def tagging (d : BuildingFlags) : Option String :=
  if d.residential = "Y" then some "Residential"
  else if d.commercial = "Y" then some "Commercial"
  else if d.market_hawker = "Y" then some "Market and hawker"
  else if d.miscellaneous = "Y" then some "Miscellaneous"
  else if d.multistorey_carpark = "Y" then some "Multi-storey carpark"
  else if d.precinct_pavilion = "Y" then some "Miscellaneous"
  else none

/-- The tagger as the spec words it: an explicit ordered list of
(flag-selector, tag) pairs, first flag equal to `"Y"` wins.  Written from the
words of the spec, to be compared with `tagging`. -/
def tag_priority : List ((BuildingFlags → String) × String) :=
  [(BuildingFlags.residential, "Residential"),
   (BuildingFlags.commercial, "Commercial"),
   (BuildingFlags.market_hawker, "Market and hawker"),
   (BuildingFlags.miscellaneous, "Miscellaneous"),
   (BuildingFlags.multistorey_carpark, "Multi-storey carpark"),
   (BuildingFlags.precinct_pavilion, "Miscellaneous")]

/-- First-match-wins evaluation of the priority list (spec side). -/
def tagging_spec (d : BuildingFlags) : Option String :=
  (tag_priority.find? (fun p => p.1 d = "Y")).map (·.2)

/-- A row with residential and commercial both set. -/
def flagsResidentialCommercial : BuildingFlags :=
  ⟨"Y", "Y", "N", "N", "N", "N"⟩

/-- A row with every flag off. -/
def flagsAllN : BuildingFlags :=
  ⟨"N", "N", "N", "N", "N", "N"⟩

/-! ## Town-code legend (`enrich_properties_data`, src/monthly_data_extractor.py lines 274-302) -/

/-- The `legend` dict of `enrich_properties_data`
(src/monthly_data_extractor.py lines 274-302), in source order. -/
def legend : List (String × String) :=
  [("AMK", "ANG MO KIO"),
   ("BB", "BUKIT BATOK"),
   ("BD", "BEDOK"),
   ("BH", "BISHAN"),
   ("BM", "BUKIT MERAH"),
   ("BP", "BUKIT PANJANG"),
   ("BT", "BUKIT TIMAH"),
   ("CCK", "CHOA CHU KANG"),
   ("CL", "CLEMENTI"),
   ("CT", "CENTRAL AREA"),
   ("GL", "GEYLANG"),
   ("HG", "HOUGANG"),
   ("JE", "JURONG EAST"),
   ("JW", "JURONG WEST"),
   ("KWN", "KALLANG"),
   ("MP", "MARINE PARADE"),
   ("PG", "PUNGGOL"),
   ("PRC", "PASIR RIS"),
   ("QT", "QUEENSTOWN"),
   ("SB", "SEMBAWANG"),
   ("SGN", "SERANGOON"),
   ("SK", "SENGKANG"),
   ("TAP", "TAMPINES"),
   ("TG", "TENGAH"),
   ("TP", "TOA PAYOH"),
   ("WL", "WOODLANDS"),
   ("YS", "YISHUN")]

/-- Python dict indexing `legend[code]`: `some town` when the key is bound,
`none` when indexing would raise `KeyError`. -/
def legend_lookup (code : String) : Option String :=
  (legend.find? (fun p => p.1 = code)).map (·.2)

/-! ## Calendar dates and month windows -/

/-- A calendar date, the value carried by the period column of a price row. -/
structure Ymd where
  y : Nat
  m : Nat
  d : Nat
deriving DecidableEq, Repr

/-- Numeric key giving the chronological order of dates
(pd.Timestamp comparison). -/
def Ymd.key (a : Ymd) : Nat := a.y * 10000 + a.m * 100 + a.d

/-- Gregorian leap-year rule used by pandas timestamps. -/
def is_leap_year (y : Nat) : Bool :=
  (y % 4 == 0 && y % 100 != 0) || y % 400 == 0

/-- Number of days in a month, as computed by pd.offsets.MonthEnd(0). -/
def days_in_month (y m : Nat) : Nat :=
  if m = 2 then (if is_leap_year y then 29 else 28)
  else if m = 4 ∨ m = 6 ∨ m = 9 ∨ m = 11 then 30
  else 31

/-- target_month = pd.to_datetime(f"{year}-{month:02d}-01"). -/
def month_start (year month : Nat) : Ymd := ⟨year, month, 1⟩

/-- month_end = (target_month + pd.offsets.MonthEnd(0)).date(). -/
def month_end (year month : Nat) : Ymd := ⟨year, month, days_in_month year month⟩

/-- The month-window test used by the merge and by download_file:
(col >= target_month) & (col <= month_end). -/
def in_month_range (year month : Nat) (x : Ymd) : Bool :=
  (month_start year month).key ≤ x.key && x.key ≤ (month_end year month).key

/-! ## Monthly resale-price frames and their merge -/

/-- A row of a resale-price frame; only the columns the merge logic reads are
carried, plus a payload distinguishing rows. -/
structure PriceRow where
  date : Ymd
  street : String
  price : Nat
deriving DecidableEq, Repr

/-- A price DataFrame.  `dcol` is the name of the period column: raw
downloads carry `"month"` (download_file converts it to datetime), enriched
and saved frames carry `"date"`.  The merge logic branches on this name, so
it is tracked explicitly. -/
structure PriceFrame where
  dcol : String
  rows : List PriceRow
deriving DecidableEq, Repr

/-- Embedding of `enrich_prices_data` (src/monthly_data_extractor.py lines
171-198) restricted to the columns modelled here: the rename
`{'month': 'date'}` applies to the period column (pandas rename is a no-op
when no column bears the old name).  The derived price_per_sqm column, the
year/month_num helper columns and the resale_price -> price rename touch
only columns outside `PriceRow` and leave the period column unchanged. -/
def enrich_prices_data (df : PriceFrame) : PriceFrame :=
  { df with dcol := if df.dcol = "month" then "date" else df.dcol }

/-- The in-memory merge step of `update_latest_prices_dataset`
(src/monthly_data_extractor.py lines 469-503): enrich the fetched batch,
then, when an existing store file is present, drop its rows inside the
target month window — but only if the existing frame has a column literally
named `"month"` (lines 486-490) — and append the batch.  In every store the
pipeline saves, the period column of both frames is named `"date"`, so the
concatenated frame keeps that single period column. -/
def update_latest_prices_merge (year month : Nat)
    (existing : Option PriceFrame) (month_df : PriceFrame) : PriceFrame :=
  let enriched := enrich_prices_data month_df
  match existing with
  | none => enriched
  | some ex =>
    let kept := if ex.dcol = "month"
      then ex.rows.filter (fun r => !(in_month_range year month r.date))
      else ex.rows
    { dcol := enriched.dcol, rows := kept ++ enriched.rows }

/-- The same merge step as implemented in src/api/daily_data_extractor.py
lines 331-360, whose dedup guard tests for the column named `"date"`
(lines 336 and 346) instead of `"month"`. -/
def update_latest_prices_merge_daily (year month : Nat)
    (existing : Option PriceFrame) (month_df : PriceFrame) : PriceFrame :=
  let enriched := enrich_prices_data month_df
  match existing with
  | none => enriched
  | some ex =>
    let kept := if ex.dcol = "date"
      then ex.rows.filter (fun r => !(in_month_range year month r.date))
      else ex.rows
    { dcol := enriched.dcol, rows := kept ++ enriched.rows }

/-! ## Aggregated quarterly prices and their merge -/

/-- A raw row of the aggregated quarterly price dataset as downloaded;
price may be missing (NaN). -/
structure AggRowRaw where
  quarter : String
  town : String
  flat_type : String
  price : Option String
deriving DecidableEq, Repr

/-- A normalised aggregated price row, as stored in agg_prices.csv. -/
structure AggRow where
  quarter : String
  town : String
  flat_type : String
  price : String
deriving DecidableEq, Repr

/-- Column normalisation of `update_latest_aggprices_dataset`
(src/monthly_data_extractor.py lines 644-647): flat_type has hyphens
replaced by spaces and is upper-cased, price NaN becomes "-", town is
upper-cased with "CENTRAL" mapped to "CENTRAL AREA". -/
def enrich_agg_row (r : AggRowRaw) : AggRow :=
  let ft := (r.flat_type.replace "-" " ").toUpper
  let town0 := r.town.toUpper
  { quarter := r.quarter
    town := if town0 = "CENTRAL" then "CENTRAL AREA" else town0
    flat_type := ft
    price := r.price.getD "-" }

/-- quarter = (month - 1) // 3 + 1 (src/monthly_data_extractor.py line 633). -/
def quarter_of_month (month : Nat) : Nat := (month - 1) / 3 + 1

/-- quarter_str = f"Q{quarter}" (src/monthly_data_extractor.py line 634):
the year-less label the merge compares against. -/
def quarter_str_of_month (month : Nat) : String :=
  "Q" ++ toString (quarter_of_month month)

/-- The quarter label carried by the rows of a batch fetched for
(year, month): update_latest_aggprices_dataset calls download_file with
quarter="Qn" and the year, and both the server-side filter and the fallback
column assignment (src/monthly_data_extractor.py lines 73-75 and 150-155)
use the year-qualified f"{year}-Qn". -/
def batch_quarter_label (year month : Nat) : String :=
  toString year ++ "-" ++ quarter_str_of_month month

/-- The in-memory merge step of `update_latest_aggprices_dataset`
(src/monthly_data_extractor.py lines 649-667): rows of the existing store
whose quarter column equals quarter_str — the year-less "Qn" of line 634 —
are dropped (line 657), then the new batch is appended.  The stored frame
always has a quarter column (it is saved from batches that carry one), so
the column-presence guard of line 656 is in its true branch. -/
def update_latest_aggprices_merge (month : Nat)
    (existing : Option (List AggRow)) (quarter_df : List AggRow) : List AggRow :=
  match existing with
  | none => quarter_df
  | some ex =>
    ex.filter (fun r => r.quarter != quarter_str_of_month month) ++ quarter_df

/-! ## Building (properties) records, enrichment output and merge -/

/-- The output record shape built by `enrich_properties_data`
(src/monthly_data_extractor.py lines 304-317); the float latitude/longitude
columns are not modelled, the remaining columns are carried as strings. -/
structure PropertyRecord where
  tag : Option String
  town : String
  address : String
  street : String
  total_units : String
  year : String
  max_floor_lvl : String
deriving DecidableEq, Repr

/-- A geocoded input row of the output-building loop of
`enrich_properties_data`: the original CSV columns plus the ADDRESS field
taken from the geocoder result (lines 263-269). -/
structure RawPropertyRow where
  blk_no : String
  street : String
  bldg_contract_town : String
  year_completed : String
  total_dwelling_units : String
  max_floor_lvl : String
  flags : BuildingFlags
  address : String
deriving DecidableEq, Repr

/-- One iteration of the output-building loop of `enrich_properties_data`
(src/monthly_data_extractor.py lines 304-317).  The indexing
legend[d[bldg_contract_town]] raises KeyError when the town code is absent
from the table; the raise is embedded as Except.error. -/
def build_property_record (d : RawPropertyRow) : Except String PropertyRecord :=
  match legend_lookup d.bldg_contract_town with
  | none => .error ("KeyError: " ++ d.bldg_contract_town)
  | some t =>
    .ok { tag := tagging d.flags
          town := t
          address := d.address
          street := d.street
          total_units := d.total_dwelling_units
          year := d.year_completed
          max_floor_lvl := d.max_floor_lvl }

/-- The record-building phase of `enrich_properties_data` over the geocoded
rows: the loop body has no try/except around the legend indexing, so the
first KeyError aborts the whole enrichment call. -/
def enrich_properties_build : List RawPropertyRow → Except String (List PropertyRecord)
  | [] => .ok []
  | d :: rest =>
    match build_property_record d with
    | .error e => .error e
    | .ok r => (enrich_properties_build rest).map (fun l => r :: l)

/-- The rows of the existing store kept by the dedup step of
`update_latest_properties_dataset` (src/monthly_data_extractor.py lines
370-379): the duplicate address set is the intersection of existing and new
address sets, and existing rows with an address in it are dropped — only
when the intersection is nonempty (the `if duplicate_addresses:` guard). -/
def update_latest_properties_kept
    (existing new_rows : List PropertyRecord) : List PropertyRecord :=
  let existing_addresses : List String := existing.map PropertyRecord.address
  let new_addresses : List String := new_rows.map PropertyRecord.address
  let duplicate_addresses : List String :=
    existing_addresses.filter (fun a => decide (a ∈ new_addresses))
  if duplicate_addresses.isEmpty then existing
  else existing.filter (fun r => !(decide (r.address ∈ duplicate_addresses)))

/-- The dedup-and-concat merge step of `update_latest_properties_dataset`
(src/monthly_data_extractor.py lines 361-393) for frames carrying an
address column — which every enriched batch and every saved store does
(the address field is set by enrichment, lines 263-269). -/
def update_latest_properties_merge
    (existing new_rows : List PropertyRecord) : List PropertyRecord :=
  update_latest_properties_kept existing new_rows ++ new_rows

/-! ## The three top-level update operations with their error boundary

Each operation is split into the body of its try-block, returning
Except with the store state at raise time, and the boundary that converts
any exception into the boolean False (the except-clauses at
src/monthly_data_extractor.py lines 417-419, 518-520 and 685-687).
Network failures and download-parse failures happen inside download_file,
which catches them itself (lines 166-169) and returns None; they reach the
update operations as a `none` fetch.  The one parse step at the operation
level is reading the existing store file, injected through
`existing_parse_ok`. -/

/-- Body of the try-block of `update_latest_prices_dataset`
(src/monthly_data_extractor.py lines 460-516). -/
def update_latest_prices_body (year month : Nat) (fetch : Option PriceFrame)
    (existing_parse_ok : Bool) (store : Option PriceFrame) :
    Except (String × Option PriceFrame) (Bool × Option PriceFrame) :=
  match fetch with
  | none => .ok (false, store)
  | some month_df =>
    if month_df.rows.isEmpty then .ok (false, store)
    else
      match store with
      | some _ =>
        if existing_parse_ok then
          .ok (true, some (update_latest_prices_merge year month store month_df))
        else .error ("ParserError reading prices_2017_onwards.csv", store)
      | none =>
        .ok (true, some (update_latest_prices_merge year month none month_df))

/-- Embedding of `update_latest_prices_dataset` (src/monthly_data_extractor.py
lines 438-520): the pre-2017 guard, then the try/except boundary mapping any
exception to False with the store as it stood when the exception arose. -/
def update_latest_prices_op (year month : Nat) (fetch : Option PriceFrame)
    (existing_parse_ok : Bool) (store : Option PriceFrame) :
    Bool × Option PriceFrame :=
  if year < 2017 then (false, store)
  else
    match update_latest_prices_body year month fetch existing_parse_ok store with
    | .ok r => r
    | .error (_, s) => (false, s)

/-- Body of the try-block of `update_latest_properties_dataset`
(src/monthly_data_extractor.py lines 334-415): the existing JSON store is
read first (lines 336-345, parse may raise), then the batch is fetched and
enriched — the town-legend KeyError propagates out of the enrichment —
and finally merged and saved. -/
def update_latest_properties_body (fetch : Option (List RawPropertyRow))
    (existing_parse_ok : Bool) (store : Option (List PropertyRecord)) :
    Except (String × Option (List PropertyRecord))
           (Bool × Option (List PropertyRecord)) :=
  if store.isSome && !existing_parse_ok then
    .error ("JSONDecodeError reading properties_combined.json", store)
  else
    match fetch with
    | none => .ok (false, store)
    | some raw =>
      if raw.isEmpty then .ok (false, store)
      else
        match enrich_properties_build raw with
        | .error e => .error (e, store)
        | .ok new_rows =>
          match store with
          | some ex => .ok (true, some (update_latest_properties_merge ex new_rows))
          | none => .ok (true, some new_rows)

/-- Embedding of `update_latest_properties_dataset`
(src/monthly_data_extractor.py lines 321-419) with its except boundary. -/
def update_latest_properties_op (fetch : Option (List RawPropertyRow))
    (existing_parse_ok : Bool) (store : Option (List PropertyRecord)) :
    Bool × Option (List PropertyRecord) :=
  match update_latest_properties_body fetch existing_parse_ok store with
  | .ok r => r
  | .error (_, s) => (false, s)

/-- Body of the try-block of `update_latest_aggprices_dataset`
(src/monthly_data_extractor.py lines 636-683). -/
def update_latest_aggprices_body (month : Nat) (fetch : Option (List AggRowRaw))
    (existing_parse_ok : Bool) (store : Option (List AggRow)) :
    Except (String × Option (List AggRow)) (Bool × Option (List AggRow)) :=
  match fetch with
  | none => .ok (false, store)
  | some raw =>
    if raw.isEmpty then .ok (false, store)
    else
      let quarter_df := raw.map enrich_agg_row
      match store with
      | some _ =>
        if existing_parse_ok then
          .ok (true, some (update_latest_aggprices_merge month store quarter_df))
        else .error ("ParserError reading agg_prices.csv", store)
      | none =>
        .ok (true, some (update_latest_aggprices_merge month none quarter_df))

/-- Embedding of `update_latest_aggprices_dataset`
(src/monthly_data_extractor.py lines 615-687) with its except boundary. -/
def update_latest_aggprices_op (month : Nat) (fetch : Option (List AggRowRaw))
    (existing_parse_ok : Bool) (store : Option (List AggRow)) :
    Bool × Option (List AggRow) :=
  match update_latest_aggprices_body month fetch existing_parse_ok store with
  | .ok r => r
  | .error (_, s) => (false, s)

/-! ## Segment store reads and the prices endpoint (src/app.py) -/

/-- A date query parameter as classified by string length in
load_prices_data_for_period (src/app.py lines 52-66): "YYYY" (length 4),
"YYYY-MM" (length 7), or a full date string. -/
inductive DateArg
  | year (y : Nat)
  | yearMonth (y m : Nat)
  | full (y m d : Nat)
deriving DecidableEq, Repr

/-- Start-bound resolution (src/app.py lines 52-58): "YYYY" becomes
YYYY-01-01 and "YYYY-MM" becomes the first of the month. -/
def resolve_start : DateArg → Ymd
  | .year y => ⟨y, 1, 1⟩
  | .yearMonth y m => ⟨y, m, 1⟩
  | .full y m d => ⟨y, m, d⟩

/-- End-bound resolution (src/app.py lines 60-66): "YYYY" becomes
YYYY-12-31 and "YYYY-MM" gets pd.offsets.MonthEnd(0), the last calendar day
of that month. -/
def resolve_end : DateArg → Ymd
  | .year y => ⟨y, 12, 31⟩
  | .yearMonth y m => ⟨y, m, days_in_month y m⟩
  | .full y m d => ⟨y, m, d⟩

/-- The five physical price segments (PRICES_SEGMENTS, src/app.py
lines 32-38). -/
inductive Segment
  | s1990_1999
  | s2000_2012
  | s2012_2014
  | s2015_2016
  | s2017_2025
deriving DecidableEq, Repr

/-- Segment resolution of load_prices_data_for_period (src/app.py
lines 74-89), keyed on the start and end years of the requested range. -/
def segments_to_load (start_year end_year : Nat) : List Segment :=
  (if start_year ≤ 1999 then [Segment.s1990_1999] else []) ++
  (if start_year ≤ 2012 ∧ 2000 ≤ end_year then [Segment.s2000_2012] else []) ++
  (if start_year ≤ 2014 ∧ 2012 ≤ end_year then [Segment.s2012_2014] else []) ++
  (if start_year ≤ 2016 ∧ 2015 ≤ end_year then [Segment.s2015_2016] else []) ++
  (if 2017 ≤ end_year then [Segment.s2017_2025] else [])

/-- A stored resale transaction row as served by src/app.py.  The price
column holds the value after pd.to_numeric(errors=coerce): `none` encodes
NaN (a non-numeric source value). -/
structure ResaleRow where
  date : Ymd
  town : String
  block : String
  street : String
  flat_type : String
  price : Option ℚ
deriving DecidableEq, Repr

/-- Embedding of `load_prices_data_for_period` (src/app.py lines 40-124):
resolve both bounds, pick the overlapping segments, filter each loaded
segment to [start_date, end_date] on the date column, and concatenate.
The store maps each segment to its rows; every segment file is present and
carries a date column, the state the pipeline maintains. -/
def load_prices_data_for_period (store : Segment → List ResaleRow)
    (s e : DateArg) : List ResaleRow :=
  let sd := resolve_start s
  let ed := resolve_end e
  ((segments_to_load sd.y ed.y).map
    (fun seg => (store seg).filter
      (fun r => sd.key ≤ r.date.key && r.date.key ≤ ed.key))).flatten

/-- The grouping key of the prices endpoint: (date, street, flat_type). -/
abbrev PriceGroupKey := Ymd × String × String

/-- The grouping key of a row (src/app.py line 294). -/
def resale_key (r : ResaleRow) : PriceGroupKey := (r.date, r.street, r.flat_type)

/-- The distinct group keys of the input rows (List.dedup).  pandas groupby
sorts group keys; every statement proved below about the grouped result is
membership-based, so the key order is immaterial. -/
def unique_keys (ks : List PriceGroupKey) : List PriceGroupKey := ks.dedup

/-- Insertion into a sorted list of rationals. -/
def insert_sorted (x : ℚ) : List ℚ → List ℚ
  | [] => [x]
  | y :: ys => if x ≤ y then x :: y :: ys else y :: insert_sorted x ys

/-- Insertion sort, ascending. -/
def sort_rat (xs : List ℚ) : List ℚ := xs.foldr insert_sorted []

/-- pandas Series.median over the non-null values of the group: the middle
element for odd counts, the mean of the two middle elements for even
counts, NaN (none) for an all-null group. -/
def series_median (xs : List ℚ) : Option ℚ :=
  let s := sort_rat xs
  let n := s.length
  if n = 0 then none
  else if n % 2 = 1 then some (s.getD (n / 2) 0)
  else some ((s.getD (n / 2 - 1) 0 + s.getD (n / 2) 0) / 2)

/-- Embedding of groupby(['date','street','flat_type']).agg(median)
(src/app.py line 294): one output record per distinct key, whose price is
the median of the prices of the rows of that group. -/
def agg_prices_by_group (rows : List ResaleRow) :
    List (PriceGroupKey × Option ℚ) :=
  (unique_keys (rows.map resale_key)).map
    (fun k => (k, series_median
      ((rows.filter (fun r => decide (resale_key r = k))).filterMap
        (fun r => r.price))))

/-- Embedding of the data path of `get_prices_local` (src/app.py lines
248-301): load the rows of the requested period, filter by towns when any
were supplied, coerce prices to numeric, and group by (date, street,
flat_type) taking the median price. -/
def get_prices_local (store : Segment → List ResaleRow) (s e : DateArg)
    (towns : List String) : List (PriceGroupKey × Option ℚ) :=
  let df := load_prices_data_for_period store s e
  let df := if towns.isEmpty then df
            else df.filter (fun r => decide (r.town ∈ towns))
  agg_prices_by_group df

/-! ## The remote download protocol (download_file, src/monthly_data_extractor.py lines 104-169) -/

/-- Shape of the initiate-download JSON response: which of the expected
fields response['data'] and response['data']['message'] are present
(the check at lines 113-115). -/
structure InitiateResp where
  has_data : Bool
  has_message : Bool
deriving DecidableEq, Repr

/-- Shape of a poll-download JSON response. `dataField = some (some u)`
when both the data field and a url inside it are present, `some none` when
data is present without url, `none` when data itself is missing. -/
structure PollResp where
  dataField : Option (Option String)
deriving DecidableEq, Repr

/-- The ready-link extraction of line 130:
`"data" in poll_data and "url" in poll_data['data']`. -/
def PollResp.ready_url (p : PollResp) : Option String :=
  match p.dataField with
  | some (some u) => some u
  | _ => none

/-- The distinct exit paths of download_file. -/
inductive DownloadOutcome
  | ok (url : String)
  | badInitiate
  | pollTimeout
deriving DecidableEq, Repr

/-- MAX_POLLS = 5 (src/monthly_data_extractor.py line 120). -/
def MAX_POLLS : Nat := 5

/-- The poll loop of download_file (lines 121-165) over the successive poll
responses, also returning the list of executed sleep durations:
time.sleep(3) runs after every poll that found no ready link (line 164). -/
def poll_download : List PollResp → DownloadOutcome × List Nat
  | [] => (.pollTimeout, [])
  | p :: rest =>
    match p.ready_url with
    | some u => (.ok u, [])
    | none =>
      let r := poll_download rest
      (r.1, 3 :: r.2)

/-- Control flow of `download_file` (src/monthly_data_extractor.py lines
104-169) as a function of the remote responses: a malformed initiate
response (missing data or message) aborts before any poll; otherwise at
most MAX_POLLS successive poll responses are consulted. -/
def download_file_outcome (init : InitiateResp) (polls : Nat → PollResp) :
    DownloadOutcome × List Nat :=
  if init.has_data && init.has_message then
    poll_download ((List.range MAX_POLLS).map polls)
  else (.badInitiate, [])

/-! ## Top-level orchestration -/

/-- Embedding of `extract_monthly_data` (src/monthly_data_extractor.py lines
690-725): run the three per-dataset updates (prices only from 2017 on),
log their boolean results, and return True.  The sub-update outcomes are
supplied as functions of (year, month). -/
def extract_monthly_data (year month : Nat)
    (props prices agg : Nat → Nat → Bool) : Bool :=
  let _properties_updated := props year month
  let _prices_updated := if 2017 ≤ year then prices year month else false
  let _agg_prices_updated := agg year month
  true

/-- Embedding of `run` (src/api/monthly_data_extractor.py lines 457-482):
properties update, then aggregated prices update, then return True. -/
def run_api (year month : Nat) (props agg : Nat → Nat → Bool) : Bool :=
  let _properties_updated := props year month
  let _agg_prices_updated := agg year month
  true

/-! ## Concrete fixtures -/

/-- A stored aggregated row for quarter 2024-Q2 from an earlier run. -/
def staleAggRow : AggRow := ⟨"2024-Q2", "BEDOK", "3 ROOM", "420000"⟩

/-- The corresponding row of a re-fetched 2024-Q2 batch. -/
def freshAggRow : AggRow := ⟨"2024-Q2", "BEDOK", "3 ROOM", "431000"⟩

/-- A fetched batch for 2024-03, with the raw "month" period column as
download_file returns it. -/
def marchBatch : PriceFrame :=
  ⟨"month", [⟨⟨2024, 3, 15⟩, "ANG MO KIO AVE 1", 500000⟩]⟩

/-- A geocoded input row bearing the unknown town code "XYZ". -/
def rawRowXYZ : RawPropertyRow :=
  ⟨"309", "ANG MO KIO AVE 1", "XYZ", "1977", "90", "12",
   ⟨"Y", "N", "N", "N", "N", "N"⟩, "309 ANG MO KIO AVENUE 1 SINGAPORE"⟩

/-! ## Claim theorems -/

/-- C1: the claim states that the aggregated-quarterly merge drops every
existing row whose quarter label equals the label of the new batch, leaving
exactly the batch rows for the targeted quarter.  The code compares the
stored labels against the year-less string "Qn" (line 634/657), which never
equals the year-qualified labels the rows carry, so a stale row for the
targeted quarter survives the merge: for year 2024, month 4 (batch label
"2024-Q2"), a store holding a 2024-Q2 row still holds it after merging a
fresh 2024-Q2 batch. -/
theorem C1_aggprices_merge_retains_targeted_quarter :
    batch_quarter_label 2024 4 = "2024-Q2" ∧
    staleAggRow.quarter = batch_quarter_label 2024 4 ∧
    update_latest_aggprices_merge 4 (some [staleAggRow]) [freshAggRow] =
      [staleAggRow, freshAggRow] ∧
    staleAggRow ∈ update_latest_aggprices_merge 4 (some [staleAggRow]) [freshAggRow] := by
  refine ⟨by decide, by decide, by decide, by decide⟩

/-- C2: the claim asserts idempotence of the prices and aggregated-prices
merges.  The monthly prices merge dedups only when the existing frame has a
column named "month", but every saved store carries the enriched name
"date", so merging the 2024-03 batch twice duplicates every row; the
daily-extractor variant, which tests for "date", is idempotent on the same
input; the aggregated merge also duplicates because its label comparison
uses the year-less "Qn". -/
theorem C2_prices_merge_not_idempotent :
    (update_latest_prices_merge 2024 3
       (some (update_latest_prices_merge 2024 3 none marchBatch)) marchBatch).rows =
      (update_latest_prices_merge 2024 3 none marchBatch).rows ++
        (update_latest_prices_merge 2024 3 none marchBatch).rows ∧
    update_latest_prices_merge 2024 3
       (some (update_latest_prices_merge 2024 3 none marchBatch)) marchBatch ≠
      update_latest_prices_merge 2024 3 none marchBatch ∧
    update_latest_prices_merge_daily 2024 3
       (some (update_latest_prices_merge_daily 2024 3 none marchBatch)) marchBatch =
      update_latest_prices_merge_daily 2024 3 none marchBatch ∧
    update_latest_aggprices_merge 4
       (some (update_latest_aggprices_merge 4 none [freshAggRow])) [freshAggRow] ≠
      update_latest_aggprices_merge 4 none [freshAggRow] := by
  refine ⟨by decide, by decide, by decide, by decide⟩

/-- C6: per building row, the category tag is the first flag equal to "Y" in
the priority order residential > commercial > market/hawker > miscellaneous
> multistorey-carpark, with precinct/pavilion also mapping to
"Miscellaneous", and no tag when no flag matches; a row with both
residential and commercial set tags "Residential", a row with all flags "N"
is untagged. -/
theorem C6_tagging_priority_order :
    (∀ d : BuildingFlags, tagging d = tagging_spec d) ∧
    tagging flagsResidentialCommercial = some "Residential" ∧
    tagging flagsAllN = none := by
  refine ⟨?_, by decide, by decide⟩
  intro d
  by_cases h1 : d.residential = "Y" <;>
    by_cases h2 : d.commercial = "Y" <;>
      by_cases h3 : d.market_hawker = "Y" <;>
        by_cases h4 : d.miscellaneous = "Y" <;>
          by_cases h5 : d.multistorey_carpark = "Y" <;>
            by_cases h6 : d.precinct_pavilion = "Y" <;>
              simp [tagging, tagging_spec, tag_priority, List.find?,
                h1, h2, h3, h4, h5, h6]

/-- C4 counterexample: the town-code table of the source has 27 entries,
not the 26 the claim states. -/
theorem C4_legend_not_26_codes : legend.length = 27 ∧ legend.length ≠ 26 := by
  decide

/-- Helper: the legend lookup fails exactly on the codes absent from the
table. -/
theorem legend_lookup_none_iff (code : String) :
    legend_lookup code = none ↔ code ∉ legend.map Prod.fst := by
  constructor
  · intro h hmem
    rcases List.mem_map.mp hmem with ⟨p, hp, hc⟩
    have hfind := Option.map_eq_none'.mp h
    have := List.find?_eq_none.mp hfind p hp
    simp only [decide_eq_true_eq] at this
    exact this hc
  · intro h
    have hfind : legend.find? (fun p => decide (p.1 = code)) = none := by
      apply List.find?_eq_none.mpr
      intro p hp
      simp only [decide_eq_true_eq]
      intro hc
      exact h (List.mem_map.mpr ⟨p, hp, hc⟩)
    simp [legend_lookup, hfind]

/-- Helper: a successful legend lookup returns a binding of the table. -/
theorem legend_lookup_some_mem {code town : String}
    (h : legend_lookup code = some town) : (code, town) ∈ legend := by
  unfold legend_lookup at h
  cases hf : legend.find? (fun p => decide (p.1 = code)) with
  | none => rw [hf] at h; exact absurd h (by simp)
  | some p =>
    rw [hf] at h
    simp only [Option.map_some'] at h
    have hm := List.mem_of_find?_eq_some hf
    have hp := List.find?_some hf
    simp only [decide_eq_true_eq] at hp
    have : (code, town) = p := by
      cases h; cases hp; exact Prod.ext rfl rfl
    rw [this]
    exact hm

/-- C4 (amended: the table has 27 known codes, not 26): the lookup table is
fixed with 27 pairwise-distinct codes; a row whose town code is absent from
the table makes the record-building step fail with a KeyError — fatal to
that row — and a successful lookup only ever returns a town bound in the
table, never a default. -/
theorem C4_town_lookup_fails_closed :
    legend.length = 27 ∧
    (legend.map Prod.fst).Nodup ∧
    (∀ d : RawPropertyRow, d.bldg_contract_town ∉ legend.map Prod.fst →
      build_property_record d =
        .error ("KeyError: " ++ d.bldg_contract_town)) ∧
    (∀ d r, build_property_record d = .ok r →
      (d.bldg_contract_town, r.town) ∈ legend) ∧
    legend_lookup "XYZ" = none := by
  refine ⟨by decide, by decide, ?_, ?_, by decide⟩
  · intro d hd
    have h := (legend_lookup_none_iff d.bldg_contract_town).mpr hd
    simp [build_property_record, h]
  · intro d r h
    unfold build_property_record at h
    cases hl : legend_lookup d.bldg_contract_town with
    | none => rw [hl] at h; exact absurd h (by simp)
    | some t =>
      rw [hl] at h
      simp only [Except.ok.injEq] at h
      have hmem := legend_lookup_some_mem hl
      have : r.town = t := by rw [← h]
      rw [this]
      exact hmem

/-- C4 witness: the row with town code "XYZ" is rejected with a KeyError. -/
theorem C4_town_lookup_fails_closed_witness :
    build_property_record rawRowXYZ =
      .error ("KeyError: " ++ rawRowXYZ.bldg_contract_town) :=
  C4_town_lookup_fails_closed.2.2.1 rawRowXYZ (by decide)

/-- C10: the monthly orchestration returns True for every year and month
and every combination of sub-update outcomes — in particular when all of
them fail — so its result never reflects whether any dataset was updated. -/
theorem C10_orchestration_always_true :
    ∀ (year month : Nat) (props prices agg : Nat → Nat → Bool),
      extract_monthly_data year month props prices agg = true ∧
      run_api year month props agg = true ∧
      extract_monthly_data year month
        (fun _ _ => false) (fun _ _ => false) (fun _ _ => false) = true ∧
      run_api year month (fun _ _ => false) (fun _ _ => false) = true := by
  intro year month props prices agg
  exact ⟨rfl, rfl, rfl, rfl⟩

/-! ## Replace-by-key merge: characterisation (C5) -/

/-- Helper: an existing row survives the dedup step of the properties merge
exactly when its address is absent from the address set of the new batch. -/
theorem mem_properties_kept_iff (existing new_rows : List PropertyRecord)
    (r : PropertyRecord) (hr : r ∈ existing) :
    r ∈ update_latest_properties_kept existing new_rows ↔
      r.address ∉ new_rows.map PropertyRecord.address := by
  unfold update_latest_properties_kept
  by_cases hdup : ((existing.map PropertyRecord.address).filter
      (fun a => decide (a ∈ new_rows.map PropertyRecord.address))).isEmpty
  · rw [if_pos hdup]
    have habs : r.address ∉ new_rows.map PropertyRecord.address := by
      intro hmem
      have hin : r.address ∈ (existing.map PropertyRecord.address).filter
          (fun a => decide (a ∈ new_rows.map PropertyRecord.address)) := by
        apply List.mem_filter.mpr
        exact ⟨List.mem_map_of_mem _ hr, by simpa using hmem⟩
      rw [List.isEmpty_iff] at hdup
      rw [hdup] at hin
      exact absurd hin (List.not_mem_nil _)
    simp [hr, habs]
  · rw [if_neg hdup]
    rw [List.mem_filter]
    have hdupiff : r.address ∈ (existing.map PropertyRecord.address).filter
        (fun a => decide (a ∈ new_rows.map PropertyRecord.address)) ↔
        r.address ∈ new_rows.map PropertyRecord.address := by
      constructor
      · intro hin
        exact of_decide_eq_true (List.mem_filter.mp hin).2
      · intro hna
        exact List.mem_filter.mpr
          ⟨List.mem_map_of_mem _ hr, decide_eq_true hna⟩
    constructor
    · rintro ⟨-, hkeep⟩
      rw [Bool.not_eq_true', decide_eq_false_iff_not] at hkeep
      exact fun hna => hkeep (hdupiff.mpr hna)
    · intro hna
      refine ⟨hr, ?_⟩
      rw [Bool.not_eq_true', decide_eq_false_iff_not]
      exact fun hin => hna (hdupiff.mp hin)

/-- C5: in the building replace-by-key merge, every existing row whose
address is absent from the address-key set of the new batch is preserved in
the merged store, every existing row whose address appears in the batch is
dropped before the new rows are appended, and the merged store is the kept
existing rows followed by the new batch — also under partial overlap. -/
theorem C5_properties_replace_by_key :
    ∀ (existing new_rows : List PropertyRecord) (r : PropertyRecord),
      r ∈ existing →
      ((r.address ∉ new_rows.map PropertyRecord.address →
          r ∈ update_latest_properties_merge existing new_rows) ∧
       (r.address ∈ new_rows.map PropertyRecord.address →
          r ∉ update_latest_properties_kept existing new_rows) ∧
       update_latest_properties_merge existing new_rows =
         update_latest_properties_kept existing new_rows ++ new_rows) := by
  intro existing new_rows r hr
  refine ⟨?_, ?_, rfl⟩
  · intro habs
    exact List.mem_append_left _
      ((mem_properties_kept_iff existing new_rows r hr).mpr habs)
  · intro hpres hk
    exact (mem_properties_kept_iff existing new_rows r hr).mp hk hpres

/-- An existing building record whose address does not recur in the batch. -/
def propA : PropertyRecord :=
  ⟨some "Residential", "ANG MO KIO", "1 A ST", "A ST", "50", "1980", "10"⟩

/-- An existing building record whose address recurs in the batch. -/
def propB : PropertyRecord :=
  ⟨some "Residential", "BEDOK", "2 B ST", "B ST", "60", "1985", "12"⟩

/-- The refreshed version of the second record, same address key. -/
def propB2 : PropertyRecord :=
  ⟨some "Commercial", "BEDOK", "2 B ST", "B ST", "61", "1985", "12"⟩

/-- C5 witness: on a store of two records and a batch overlapping one of
them, the non-overlapping record is preserved and the overlapping one is
dropped from the kept part. -/
theorem C5_properties_replace_by_key_witness :
    propA ∈ update_latest_properties_merge [propA, propB] [propB2] ∧
    propB ∉ update_latest_properties_kept [propA, propB] [propB2] := by
  constructor
  · exact (C5_properties_replace_by_key [propA, propB] [propB2] propA
      (by decide)).1 (by decide)
  · exact (C5_properties_replace_by_key [propA, propB] [propB2] propB
      (by decide)).2.1 (by decide)

/-! ## Period-range reads (C7) -/

/-- Helper: membership in a period-range read, for arbitrary bounds. -/
theorem mem_load_prices_iff (store : Segment → List ResaleRow)
    (s e : DateArg) (r : ResaleRow) :
    r ∈ load_prices_data_for_period store s e ↔
      ∃ seg ∈ segments_to_load (resolve_start s).y (resolve_end e).y,
        r ∈ store seg ∧
        (resolve_start s).key ≤ r.date.key ∧
        r.date.key ≤ (resolve_end e).key := by
  unfold load_prices_data_for_period
  simp only [List.mem_flatten, List.mem_map]
  constructor
  · rintro ⟨l, ⟨seg, hseg, rfl⟩, hrl⟩
    rw [List.mem_filter] at hrl
    have hb := hrl.2
    simp only [Bool.and_eq_true, decide_eq_true_eq] at hb
    exact ⟨seg, hseg, hrl.1, hb.1, hb.2⟩
  · rintro ⟨seg, hseg, hmem, h1, h2⟩
    refine ⟨_, ⟨seg, hseg, rfl⟩, ?_⟩
    rw [List.mem_filter]
    exact ⟨hmem, by simp [h1, h2]⟩

/-- C7: the range read for start 2011-06 and end 2013-02 resolves exactly
the 2000-2012 and 2012-2014 segments, the end bound becomes 2013-02-28
(February of a non-leap year), and the returned rows are exactly the rows
of those two segments whose date lies within 2011-06-01 .. 2013-02-28
inclusive. -/
theorem C7_read_range_segments_and_bounds :
    segments_to_load 2011 2013 = [Segment.s2000_2012, Segment.s2012_2014] ∧
    resolve_start (DateArg.yearMonth 2011 6) = ⟨2011, 6, 1⟩ ∧
    resolve_end (DateArg.yearMonth 2013 2) = ⟨2013, 2, 28⟩ ∧
    ∀ (store : Segment → List ResaleRow) (r : ResaleRow),
      r ∈ load_prices_data_for_period store
            (DateArg.yearMonth 2011 6) (DateArg.yearMonth 2013 2) ↔
        ((r ∈ store Segment.s2000_2012 ∨ r ∈ store Segment.s2012_2014) ∧
         (Ymd.mk 2011 6 1).key ≤ r.date.key ∧
         r.date.key ≤ (Ymd.mk 2013 2 28).key) := by
  refine ⟨by decide, by decide, by decide, ?_⟩
  intro store r
  rw [mem_load_prices_iff]
  have h1 : resolve_start (DateArg.yearMonth 2011 6) = ⟨2011, 6, 1⟩ := by decide
  have h2 : resolve_end (DateArg.yearMonth 2013 2) = ⟨2013, 2, 28⟩ := by decide
  rw [h1, h2]
  have h3 : segments_to_load (Ymd.mk 2011 6 1).y (Ymd.mk 2013 2 28).y =
      [Segment.s2000_2012, Segment.s2012_2014] := by decide
  rw [h3]
  simp only [List.mem_cons, List.not_mem_nil, or_false, exists_eq_or_imp,
    exists_eq_left]
  exact or_and_right.symm

/-! ## Median grouping of the prices endpoint (C8) -/

/-- Helper: membership in the distinct key list. -/
theorem unique_keys_mem (k : PriceGroupKey) (ks : List PriceGroupKey) :
    k ∈ unique_keys ks ↔ k ∈ ks := by
  simp [unique_keys, List.mem_dedup]

/-- Helper: the distinct key list has no duplicates. -/
theorem unique_keys_nodup (ks : List PriceGroupKey) :
    (unique_keys ks).Nodup := by
  simp only [unique_keys]
  exact List.nodup_dedup ks

/-- Helper: the keys of the grouped result are the distinct keys of the
input rows. -/
theorem agg_prices_keys (rows : List ResaleRow) :
    (agg_prices_by_group rows).map Prod.fst =
      unique_keys (rows.map resale_key) := by
  unfold agg_prices_by_group
  rw [List.map_map]
  exact List.map_id _

/-- The four-row fixture: two rows share street, flat type and date with
prices 500000 and 520000; the other two rows are in groups of their own. -/
def fixtureRows : List ResaleRow :=
  [⟨⟨2024, 3, 1⟩, "ANG MO KIO", "101", "ANG MO KIO AVE 1", "4 ROOM", some 500000⟩,
   ⟨⟨2024, 3, 1⟩, "ANG MO KIO", "102", "ANG MO KIO AVE 1", "4 ROOM", some 520000⟩,
   ⟨⟨2024, 3, 1⟩, "BEDOK", "5", "BEDOK NORTH RD", "3 ROOM", some 300000⟩,
   ⟨⟨2024, 4, 1⟩, "BEDOK", "6", "BEDOK NORTH RD", "5 ROOM", some 700000⟩]

/-- A segment store holding only the fixture, in the open 2017-2025
segment. -/
def fixtureStore : Segment → List ResaleRow
  | Segment.s2017_2025 => fixtureRows
  | _ => []

/-- C8: the prices endpoint groups the loaded rows by (date, street,
flat_type): each distinct input key yields exactly one output record
(keys of the result are duplicate-free and coincide with the input keys),
and on the four-row fixture the two duplicate rows collapse to a single
record with the median price 510000, alongside one record for each of the
two remaining groups. -/
theorem C8_prices_median_grouping :
    (∀ rows : List ResaleRow,
      ((agg_prices_by_group rows).map Prod.fst).Nodup ∧
      (∀ k, k ∈ (agg_prices_by_group rows).map Prod.fst ↔
        k ∈ rows.map resale_key)) ∧
    get_prices_local fixtureStore
        (DateArg.yearMonth 2024 1) (DateArg.yearMonth 2024 12) [] =
      [((⟨2024, 3, 1⟩, "ANG MO KIO AVE 1", "4 ROOM"), some 510000),
       ((⟨2024, 3, 1⟩, "BEDOK NORTH RD", "3 ROOM"), some 300000),
       ((⟨2024, 4, 1⟩, "BEDOK NORTH RD", "5 ROOM"), some 700000)] := by
  constructor
  · intro rows
    constructor
    · rw [agg_prices_keys]
      exact unique_keys_nodup _
    · intro k
      rw [agg_prices_keys, unique_keys_mem]
  · show agg_prices_by_group
        (load_prices_data_for_period fixtureStore
          (DateArg.yearMonth 2024 1) (DateArg.yearMonth 2024 12)) = _
    have hload : load_prices_data_for_period fixtureStore
        (DateArg.yearMonth 2024 1) (DateArg.yearMonth 2024 12) = fixtureRows := by
      decide
    rw [hload]
    unfold agg_prices_by_group
    rw [show unique_keys (fixtureRows.map resale_key) =
      [(⟨2024, 3, 1⟩, "ANG MO KIO AVE 1", "4 ROOM"),
       (⟨2024, 3, 1⟩, "BEDOK NORTH RD", "3 ROOM"),
       (⟨2024, 4, 1⟩, "BEDOK NORTH RD", "5 ROOM")] from by decide]
    simp only [List.map_cons, List.map_nil]
    rw [show (fixtureRows.filter (fun r => decide (resale_key r =
        (⟨2024, 3, 1⟩, "ANG MO KIO AVE 1", "4 ROOM")))).filterMap
        (fun r => r.price) = [(500000 : ℚ), 520000] from by decide]
    rw [show (fixtureRows.filter (fun r => decide (resale_key r =
        (⟨2024, 3, 1⟩, "BEDOK NORTH RD", "3 ROOM")))).filterMap
        (fun r => r.price) = [(300000 : ℚ)] from by decide]
    rw [show (fixtureRows.filter (fun r => decide (resale_key r =
        (⟨2024, 4, 1⟩, "BEDOK NORTH RD", "5 ROOM")))).filterMap
        (fun r => r.price) = [(700000 : ℚ)] from by decide]
    rw [show series_median [(500000 : ℚ), 520000] = some 510000 from by
      norm_num [series_median, sort_rat, insert_sorted]]
    rw [show series_median [(300000 : ℚ)] = some 300000 from by
      norm_num [series_median, sort_rat, insert_sorted]]
    rw [show series_median [(700000 : ℚ)] = some 700000 from by
      norm_num [series_median, sort_rat, insert_sorted]]

/-! ## Error boundary of the update operations (C3) -/

/-- Helper: a failed fetch leaves the prices operation at False with the
store unchanged. -/
theorem prices_op_fetch_none (year month : Nat) (pok : Bool)
    (store : Option PriceFrame) :
    update_latest_prices_op year month none pok store = (false, store) := by
  unfold update_latest_prices_op update_latest_prices_body
  by_cases hy : year < 2017 <;> simp [hy]

/-- Helper: a parse failure on the existing prices store yields False with
the store unchanged. -/
theorem prices_op_parse_fail (year month : Nat) (fetch : Option PriceFrame)
    (ex : PriceFrame) :
    update_latest_prices_op year month fetch false (some ex) =
      (false, some ex) := by
  unfold update_latest_prices_op update_latest_prices_body
  by_cases hy : year < 2017
  · simp [hy]
  · cases fetch with
    | none => simp [hy]
    | some df => by_cases hdf : df.rows.isEmpty <;> simp [hy, hdf]

/-- Helper: the prices operation either returns False with the store
unchanged or returns True. -/
theorem prices_op_cases (year month : Nat) (fetch : Option PriceFrame)
    (pok : Bool) (store : Option PriceFrame) :
    update_latest_prices_op year month fetch pok store = (false, store) ∨
    (update_latest_prices_op year month fetch pok store).1 = true := by
  unfold update_latest_prices_op update_latest_prices_body
  by_cases hy : year < 2017
  · left; simp [hy]
  · cases fetch with
    | none => left; simp [hy]
    | some df =>
      by_cases hdf : df.rows.isEmpty
      · left; simp [hy, hdf]
      · cases store with
        | none => right; simp [hy, hdf]
        | some ex =>
          cases pok with
          | false => left; simp [hy, hdf]
          | true => right; simp [hy, hdf]

/-- Helper: a failed fetch leaves the properties operation at False with
the store unchanged. -/
theorem properties_op_fetch_none (pok : Bool)
    (store : Option (List PropertyRecord)) :
    update_latest_properties_op none pok store = (false, store) := by
  unfold update_latest_properties_op update_latest_properties_body
  by_cases hcond : (store.isSome && !pok) = true <;> simp [hcond]

/-- Helper: a parse failure on the existing properties store yields False
with the store unchanged. -/
theorem properties_op_parse_fail (fetch : Option (List RawPropertyRow))
    (ex : List PropertyRecord) :
    update_latest_properties_op fetch false (some ex) = (false, some ex) := by
  unfold update_latest_properties_op update_latest_properties_body
  simp

/-- Helper: the properties operation either returns False with the store
unchanged or returns True. -/
theorem properties_op_cases (fetch : Option (List RawPropertyRow))
    (pok : Bool) (store : Option (List PropertyRecord)) :
    update_latest_properties_op fetch pok store = (false, store) ∨
    (update_latest_properties_op fetch pok store).1 = true := by
  unfold update_latest_properties_op update_latest_properties_body
  by_cases hcond : (store.isSome && !pok) = true
  · left; simp [hcond]
  · cases fetch with
    | none => left; simp [hcond]
    | some raw =>
      by_cases hraw : raw.isEmpty
      · left; simp [hcond, hraw]
      · cases henr : enrich_properties_build raw with
        | error e => left; simp [hcond, hraw, henr]
        | ok nr =>
          cases store with
          | none => right; simp [hcond, hraw, henr]
          | some ex =>
            cases pok with
            | false => simp at hcond
            | true => right; simp [hraw, henr]

/-- Helper: a failed fetch leaves the aggprices operation at False with the
store unchanged. -/
theorem aggprices_op_fetch_none (month : Nat) (pok : Bool)
    (store : Option (List AggRow)) :
    update_latest_aggprices_op month none pok store = (false, store) := by
  unfold update_latest_aggprices_op update_latest_aggprices_body
  simp

/-- Helper: a parse failure on the existing aggprices store yields False
with the store unchanged. -/
theorem aggprices_op_parse_fail (month : Nat) (fetch : Option (List AggRowRaw))
    (ex : List AggRow) :
    update_latest_aggprices_op month fetch false (some ex) =
      (false, some ex) := by
  unfold update_latest_aggprices_op update_latest_aggprices_body
  cases fetch with
  | none => simp
  | some raw => by_cases hraw : raw.isEmpty <;> simp [hraw]

/-- Helper: the aggprices operation either returns False with the store
unchanged or returns True. -/
theorem aggprices_op_cases (month : Nat) (fetch : Option (List AggRowRaw))
    (pok : Bool) (store : Option (List AggRow)) :
    update_latest_aggprices_op month fetch pok store = (false, store) ∨
    (update_latest_aggprices_op month fetch pok store).1 = true := by
  unfold update_latest_aggprices_op update_latest_aggprices_body
  cases fetch with
  | none => left; simp
  | some raw =>
    by_cases hraw : raw.isEmpty
    · left; simp [hraw]
    · cases store with
      | none => right; simp [hraw]
      | some ex =>
        cases pok with
        | false => left; simp [hraw]
        | true => right; simp [hraw]

/-- C3: for each of the three top-level update operations, every network
failure (download_file returns None after catching it internally) and every
parse failure (of the existing store file; download-parse failures are also
caught inside download_file) is converted at the operation boundary to the
boolean False with no exception escaping, and whenever the operation
returns False the existing store is left untouched. -/
theorem C3_update_ops_error_boundary :
    (∀ (year month : Nat) (fetch : Option PriceFrame) (pok : Bool)
        (store : Option PriceFrame),
      ((fetch = none ∨ (store.isSome = true ∧ pok = false)) →
        update_latest_prices_op year month fetch pok store = (false, store)) ∧
      ((update_latest_prices_op year month fetch pok store).1 = false →
        (update_latest_prices_op year month fetch pok store).2 = store)) ∧
    (∀ (fetch : Option (List RawPropertyRow)) (pok : Bool)
        (store : Option (List PropertyRecord)),
      ((fetch = none ∨ (store.isSome = true ∧ pok = false)) →
        update_latest_properties_op fetch pok store = (false, store)) ∧
      ((update_latest_properties_op fetch pok store).1 = false →
        (update_latest_properties_op fetch pok store).2 = store)) ∧
    (∀ (month : Nat) (fetch : Option (List AggRowRaw)) (pok : Bool)
        (store : Option (List AggRow)),
      ((fetch = none ∨ (store.isSome = true ∧ pok = false)) →
        update_latest_aggprices_op month fetch pok store = (false, store)) ∧
      ((update_latest_aggprices_op month fetch pok store).1 = false →
        (update_latest_aggprices_op month fetch pok store).2 = store)) := by
  refine ⟨?_, ?_, ?_⟩
  · intro year month fetch pok store
    constructor
    · rintro (rfl | ⟨hs, rfl⟩)
      · exact prices_op_fetch_none year month pok store
      · cases store with
        | none => simp at hs
        | some ex => exact prices_op_parse_fail year month fetch ex
    · intro hfalse
      rcases prices_op_cases year month fetch pok store with h | h
      · rw [h]
      · exact absurd (h.symm.trans hfalse) (by decide)
  · intro fetch pok store
    constructor
    · rintro (rfl | ⟨hs, rfl⟩)
      · exact properties_op_fetch_none pok store
      · cases store with
        | none => simp at hs
        | some ex => exact properties_op_parse_fail fetch ex
    · intro hfalse
      rcases properties_op_cases fetch pok store with h | h
      · rw [h]
      · exact absurd (h.symm.trans hfalse) (by decide)
  · intro month fetch pok store
    constructor
    · rintro (rfl | ⟨hs, rfl⟩)
      · exact aggprices_op_fetch_none month pok store
      · cases store with
        | none => simp at hs
        | some ex => exact aggprices_op_parse_fail month fetch ex
    · intro hfalse
      rcases aggprices_op_cases month fetch pok store with h | h
      · rw [h]
      · exact absurd (h.symm.trans hfalse) (by decide)

/-- C3 witness: concrete failing runs of all three operations return False
and leave the concrete stores unchanged. -/
theorem C3_update_ops_error_boundary_witness :
    update_latest_prices_op 2024 3 none true (some ⟨"date", []⟩) =
      (false, some ⟨"date", []⟩) ∧
    update_latest_properties_op none true (some [propA]) =
      (false, some [propA]) ∧
    update_latest_aggprices_op 4
        (some [⟨"2024-Q2", "BEDOK", "3 ROOM", some "420000"⟩]) false
        (some [staleAggRow]) =
      (false, some [staleAggRow]) := by
  refine ⟨?_, ?_, ?_⟩
  · exact (C3_update_ops_error_boundary.1 2024 3 none true
      (some ⟨"date", []⟩)).1 (Or.inl rfl)
  · exact (C3_update_ops_error_boundary.2.1 none true (some [propA])).1
      (Or.inl rfl)
  · exact (C3_update_ops_error_boundary.2.2 4
      (some [⟨"2024-Q2", "BEDOK", "3 ROOM", some "420000"⟩]) false
      (some [staleAggRow])).1 (Or.inr ⟨rfl, rfl⟩)

/-! ## Remote polling behaviour (C9) -/

/-- A well-formed initiate response. -/
def okInitiate : InitiateResp := ⟨true, true⟩

/-- A poll response missing the expected data field entirely. -/
def malformedPoll : PollResp := ⟨none⟩

/-- A poll response with a data field but no url yet. -/
def notReadyPoll : PollResp := ⟨some none⟩

/-- A poll response carrying a ready download link. -/
def readyPoll : PollResp := ⟨some (some "https://dl.example/export.csv")⟩

/-- C9 counterexample: with a well-formed initiate response, a first poll
response missing the expected fields entirely, and a second poll response
carrying a ready link, download_file succeeds — it does not fail with
RemoteError on the malformed poll response, contradicting the claim that a
malformed response missing expected fields fails the operation at the poll
stage. -/
theorem C9_malformed_poll_still_succeeds :
    (download_file_outcome okInitiate
        (fun i => if i = 0 then malformedPoll else readyPoll)).1 =
      DownloadOutcome.ok "https://dl.example/export.csv" ∧
    (malformedPoll.dataField = none ∧ malformedPoll.ready_url = none) := by
  refine ⟨by decide, by decide, by decide⟩

/-- Helper: the poll loop times out over responses bearing no ready link,
sleeping 3 time units after each of them. -/
theorem poll_download_all_not_ready (ps : List PollResp)
    (h : ∀ p ∈ ps, p.ready_url = none) :
    poll_download ps = (DownloadOutcome.pollTimeout, List.replicate ps.length 3) := by
  induction ps with
  | nil => rfl
  | cons p rest ih =>
    have hp := h p (List.mem_cons_self _ _)
    simp [poll_download, hp,
      ih (fun q hq => h q (List.mem_cons_of_mem _ hq)), List.replicate_succ]

/-- Helper: the poll loop stops at the first response with a ready link,
having slept 3 time units after each earlier response. -/
theorem poll_download_ready_after (front : List PollResp) (p : PollResp)
    (rest : List PollResp) (u : String)
    (hfront : ∀ q ∈ front, q.ready_url = none) (hp : p.ready_url = some u) :
    poll_download (front ++ p :: rest) =
      (DownloadOutcome.ok u, List.replicate front.length 3) := by
  induction front with
  | nil => simp [poll_download, hp]
  | cons q qs ih =>
    have hq := hfront q (List.mem_cons_self _ _)
    simp [poll_download, hq,
      ih (fun x hx => hfront x (List.mem_cons_of_mem _ hx)), List.replicate_succ]

/-- C9 (amended: a malformed poll response missing expected fields is
treated as not-yet-ready and polling continues): download_file consults at
most MAX_POLLS = 5 poll responses with a fixed sleep of 3 time units after
every unsuccessful one; it succeeds with the link of the first ready
response; after 5 responses without a link it exits through the timeout
path; a malformed initiate response aborts immediately through the
RemoteError path before any poll. -/
theorem C9_download_polling :
    (∀ (init : InitiateResp) (polls : Nat → PollResp),
      (init.has_data = false ∨ init.has_message = false) →
        download_file_outcome init polls = (DownloadOutcome.badInitiate, [])) ∧
    (∀ (init : InitiateResp) (polls : Nat → PollResp),
      init.has_data = true → init.has_message = true →
      ((∀ i, i < MAX_POLLS → (polls i).ready_url = none) →
        download_file_outcome init polls =
          (DownloadOutcome.pollTimeout, List.replicate MAX_POLLS 3)) ∧
      (∀ k u, k < MAX_POLLS → (polls k).ready_url = some u →
        (∀ i, i < k → (polls i).ready_url = none) →
        download_file_outcome init polls =
          (DownloadOutcome.ok u, List.replicate k 3))) := by
  constructor
  · intro init polls hbad
    unfold download_file_outcome
    rcases hbad with h | h <;> simp [h]
  · intro init polls hd hm
    have hcond : (init.has_data && init.has_message) = true := by simp [hd, hm]
    constructor
    · intro hnone
      unfold download_file_outcome
      rw [if_pos hcond]
      rw [poll_download_all_not_ready]
      · simp [MAX_POLLS]
      · intro p hp
        rcases List.mem_map.mp hp with ⟨i, hi, rfl⟩
        exact hnone i (List.mem_range.mp hi)
    · intro k u hk hu hb
      unfold download_file_outcome
      rw [if_pos hcond]
      have hsplit : (List.range MAX_POLLS).map polls =
          ((List.range k).map polls) ++ polls k ::
            ((List.range (MAX_POLLS - (k + 1))).map (fun j => polls (k + 1 + j))) := by
        have h5 : MAX_POLLS = (k + 1) + (MAX_POLLS - (k + 1)) := by
          unfold MAX_POLLS at hk ⊢
          omega
        rw [h5, List.range_add, List.range_succ]
        simp [List.map_append, List.map_map, Function.comp, List.singleton_append]
      rw [hsplit]
      rw [poll_download_ready_after _ _ _ u ?_ hu]
      · simp
      · intro q hq
        rcases List.mem_map.mp hq with ⟨i, hi, rfl⟩
        exact hb i (List.mem_range.mp hi)

/-- C9 witness: a malformed initiate response aborts with no polls; five
not-ready responses time out after five polls with 3-unit sleeps; a link on
the second poll is taken after one 3-unit sleep. -/
theorem C9_download_polling_witness :
    download_file_outcome ⟨false, true⟩ (fun _ => notReadyPoll) =
      (DownloadOutcome.badInitiate, []) ∧
    download_file_outcome okInitiate (fun _ => notReadyPoll) =
      (DownloadOutcome.pollTimeout, List.replicate MAX_POLLS 3) ∧
    download_file_outcome okInitiate
        (fun i => if i = 0 then notReadyPoll else readyPoll) =
      (DownloadOutcome.ok "https://dl.example/export.csv", List.replicate 1 3) := by
  refine ⟨?_, ?_, ?_⟩
  · exact C9_download_polling.1 ⟨false, true⟩ (fun _ => notReadyPoll) (Or.inl rfl)
  · exact (C9_download_polling.2 okInitiate (fun _ => notReadyPoll) rfl rfl).1
      (fun i _ => rfl)
  · exact (C9_download_polling.2 okInitiate
        (fun i => if i = 0 then notReadyPoll else readyPoll) rfl rfl).2 1
        "https://dl.example/export.csv" (by decide) rfl
        (fun i hi => by
          have h0 : i = 0 := by omega
          subst h0
          rfl)
